import Mathlib

/-!
# Verification of the places-autocomplete-hook core

Shallow embedding of the hook implemented in src/src/index.ts (data model
from src/src/types.ts), together with theorems settling the specification
claims about it.

Modelling conventions:
* Machine floats (geographic coordinates) only pass through the code
  untouched, so they are modelled as `Int` (any type with decidable
  equality would do; no claim computes on them).
* A JavaScript `Error` is identified with its message string.
* `fetch` is modelled as an injected outcome (`FetchOutcome`): either a
  transport-level rejection (fetch only ever rejects with an `Error`,
  e.g. a `TypeError`) or a resolved response carrying `ok`, the numeric
  status and the parsed JSON body.
* Optional JSON fields are modelled with `Option`; the optional chain
  `errorData.error?.message` is flattened to a single `Option String`.
* React state cells are modelled explicitly; React discards `setState`
  calls on an unmounted component, which the system model reflects by
  guarding every cell write with the mounted flag.
-/

namespace PAH

/-- A match span inside prediction display text (types.ts). -/
structure TextMatch where
  endOffset : Nat
deriving DecidableEq

/-- Display text with its match spans (types.ts; the source field is named
matches, which is a reserved term former in this Lean environment). -/
structure TextWithMatches where
  text : String
  matchSpans : List TextMatch
deriving DecidableEq

/-- Secondary display text (types.ts). -/
structure SecondaryText where
  text : String
deriving DecidableEq

/-- Structured display text of a prediction (types.ts). -/
structure StructuredFormat where
  mainText : TextWithMatches
  secondaryText : SecondaryText
deriving DecidableEq

/-- One autocomplete candidate place (types.ts `PlacePrediction`). -/
structure PlacePrediction where
  place : String
  placeId : String
  text : TextWithMatches
  structuredFormat : StructuredFormat
  types : List String
deriving DecidableEq

/-- One address component of a place (types.ts `AddressComponent`). -/
structure AddressComponent where
  longText : String
  shortText : String
  types : List String
deriving DecidableEq

/-- A geographic coordinate; coordinates pass through the code untouched. -/
structure LatLng where
  latitude : Int
  longitude : Int
deriving DecidableEq

/-- The expanded record for one place (types.ts `PlaceDetails`). -/
structure PlaceDetails where
  placeId : String
  formattedAddress : String
  addressComponents : List AddressComponent
  location : LatLng
  streetNumber : Option String
  streetName : Option String
  city : Option String
  stateRegion : Option String
  country : Option String
  postalCode : Option String
deriving DecidableEq

/-- Location bias configuration (types.ts `UsePlacesAutocompleteOptions.location`). -/
structure LocationBias where
  lat : Int
  lng : Int
  radius : Option Int
deriving DecidableEq

/-- Hook configuration (types.ts `UsePlacesAutocompleteOptions`), with the
defaults applied by the destructuring in index.ts lines 10-17. -/
structure Options where
  apiKey : String
  debounceMs : Nat := 300
  language : String := "en"
  types : Option (List String) := none
  sessionToken : Option String := none
  location : Option LocationBias := none
deriving DecidableEq

/-- JavaScript truthiness of the optional session token string: `undefined`
and the empty string are falsy, every other string is truthy
(`sessionToken && \x7b ... \x7d` in index.ts lines 46 and 121). -/
def tokenTruthy : Option String → Bool
  | none => false
  | some s => s ≠ ""

/-- The conditional extra header produced by spreading
`...(sessionToken && \x7b X-Goog-Api-Key: apiKey \x7d)` (index.ts 46, 121). -/
def sessionHeaders (o : Options) : List (String × String) :=
  if tokenTruthy o.sessionToken then [("X-Goog-Api-Key", o.apiKey)] else []

/-- The circle of the `locationBias` request field (index.ts 102-110). -/
structure BiasCircle where
  latitude : Int
  longitude : Int
  radius : Option Int
deriving DecidableEq

/-- The autocomplete request body built in index.ts 92-111.  `types` is an
array and `location` an object, both truthy in JavaScript whenever present,
so `if (types)` / `if (location)` include them exactly when configured. -/
structure AutoBody where
  input : String
  languageCode : String
  typeFilters : Option (List String)
  locationBias : Option BiasCircle
deriving DecidableEq

/-- A wire request: URL, method, ordered header list, optional JSON body. -/
structure AutoRequest where
  url : String
  httpMethod : String
  headers : List (String × String)
  body : AutoBody
deriving DecidableEq

/-- The autocomplete request assembled by `search` (index.ts 92-125). -/
def autocompleteRequest (o : Options) (input : String) : AutoRequest :=
  { url := "https://places.googleapis.com/v1/places:autocomplete?key=" ++ o.apiKey
    httpMethod := "POST"
    headers :=
      [("Content-Type", "application/json"),
       ("X-Goog-FieldMask",
        "suggestions.placePrediction.place,suggestions.placePrediction.placeId,suggestions.placePrediction.text,suggestions.placePrediction.structuredFormat,suggestions.placePrediction.types")]
      ++ sessionHeaders o
    body :=
      { input := input
        languageCode := o.language
        typeFilters := o.types
        locationBias := o.location.map (fun l =>
          { latitude := l.lat, longitude := l.lng, radius := l.radius }) } }

/-- The details request assembled by `getPlaceDetails` (index.ts 39-48). -/
structure DetailsRequest where
  url : String
  httpMethod : String
  headers : List (String × String)
deriving DecidableEq

/-- GET request of `getPlaceDetails` (index.ts 39-48): the place identifier
is spliced into the URL path. -/
def detailsRequest (o : Options) (placeId : String) : DetailsRequest :=
  { url := "https://places.googleapis.com/v1/places/" ++ placeId ++ "?key=" ++ o.apiKey
      ++ "&languageCode=" ++ o.language
    httpMethod := "GET"
    headers :=
      [("Content-Type", "application/json"),
       ("X-Goog-FieldMask", "formattedAddress,addressComponents,location")]
      ++ sessionHeaders o }

/-- One suggestion of a successful autocomplete response body. -/
structure Suggestion where
  placePrediction : PlacePrediction
deriving DecidableEq

/-- Parsed JSON body of an autocomplete response.  `errMsg` flattens the
optional chain `errorData.error?.message` read on the non-ok path
(index.ts 128-129); `suggestions` is the field read on the ok path
(index.ts 134), absent in a malformed body. -/
structure AutoRespBody where
  errMsg : Option String
  suggestions : Option (List Suggestion)
deriving DecidableEq

/-- Parsed JSON body of a details response (index.ts 52, 56-57).
`formattedAddress` and `location` pass through verbatim, so their
optionality is irrelevant to every claim; `addressComponents` may be
absent (defaulted at line 57). -/
structure DetailsRespBody where
  errMsg : Option String
  formattedAddress : String
  addressComponents : Option (List AddressComponent)
  location : LatLng
deriving DecidableEq

/-- Outcome of one `fetch` invocation: a transport-level rejection with an
`Error` message, or a resolved response with `ok`, status and parsed body. -/
inductive FetchOutcome (β : Type) where
  | reject (message : String)
  | resolve (ok : Bool) (status : Nat) (body : β)
deriving DecidableEq

/-- The message synthesized from a failure status when the error body
carries no truthy message:
`errorData.error?.message \x7c\x7c` backtick-template (index.ts 53, 129). -/
def httpErrorMessage (errMsg : Option String) (status : Nat) : String :=
  match errMsg with
  | some m => if m = "" then "HTTP error! status: " ++ toString status else m
  | none => "HTTP error! status: " ++ toString status

/-- The `TypeError` raised by `data.suggestions.map` when `suggestions` is
absent (observed verbatim in index.test.ts, modulo quoting). -/
def suggestionsTypeErrorMsg : String :=
  "TypeError: Cannot read properties of undefined (reading map)"

/-- The try-block of `search` after the fetch (index.ts 127-134), as the
value it would commit or the `Error` it throws into the catch:
* transport rejection rethrows the `Error` (always an `Error` instance);
* a non-ok status throws the normalized message (128-129);
* on ok, `data.suggestions.map(s => s.placePrediction)` either maps the
  suggestions in order or raises a `TypeError` when the field is absent.
The `\x7c\x7c []` at line 134 is unreachable: `Array.prototype.map` always
returns an array, which is truthy. -/
def searchAttempt (out : FetchOutcome AutoRespBody) : Except String (List PlacePrediction) :=
  match out with
  | .reject m => .error m
  | .resolve ok status body =>
    if ok then
      match body.suggestions with
      | none => .error suggestionsTypeErrorMsg
      | some sugs => .ok (sugs.map (·.placePrediction))
    else
      .error (httpErrorMessage body.errMsg status)

/-- JavaScript falsiness of `input.trim()` (index.ts 82): `trim` strips
leading and trailing whitespace, so the trimmed string is empty exactly
when every character is whitespace.  Stated directly on the character
list, which the kernel can evaluate. -/
def jsBlank (s : String) : Bool :=
  s.data.all Char.isWhitespace

/-- The three React state cells of the hook (index.ts 18-20). -/
structure HookState where
  predictions : List PlacePrediction
  loading : Bool
  error : Option String
deriving DecidableEq

/-- Initial hook state (index.ts 18-20). -/
def initState : HookState :=
  { predictions := [], loading := false, error := none }

/-- Function clear (index.ts 23-26): sets predictions to `[]` and error to `null`;
it writes no other cell. -/
def clear (s : HookState) : HookState :=
  { s with predictions := [], error := none }

/-- One observable step of the search pipeline: a state-cell write or the
dispatch of the network request. -/
inductive SearchAction where
  | actLoading (b : Bool)
  | actError (e : Option String)
  | actPredictions (ps : List PlacePrediction)
  | actNet (req : AutoRequest)
deriving DecidableEq

/-- Effect of one action on the hook state (the network dispatch itself
writes no cell). -/
def applyAction (s : HookState) : SearchAction → HookState
  | .actLoading b => { s with loading := b }
  | .actError e => { s with error := e }
  | .actPredictions ps => { s with predictions := ps }
  | .actNet _ => s

/-- Run a list of actions over a hook state. -/
def runActions (s : HookState) (l : List SearchAction) : HookState :=
  l.foldl applyAction s

/-- The network dispatches contained in an action list. -/
def netCalls (l : List SearchAction) : List AutoRequest :=
  l.filterMap (fun a => match a with | .actNet r => some r | _ => none)

/-- Cell writes performed by `clear` (index.ts 23-26). -/
def clearActions : List SearchAction :=
  [.actPredictions [], .actError none]

/-- Cell writes at the start of a non-empty search (index.ts 88-89). -/
def startActions : List SearchAction :=
  [.actLoading true, .actError none]

/-- Cell writes after the fetch settles: the success commit (index.ts 134)
or the catch handler (136-137), then the `finally` clearing loading (139). -/
def settleActions (out : FetchOutcome AutoRespBody) : List SearchAction :=
  (match searchAttempt out with
   | .ok preds => [.actPredictions preds]
   | .error e => [.actError (some e), .actPredictions []])
  ++ [.actLoading false]

/-- Full observable trace of one `search(input)` run (index.ts 80-141)
against a transport that would answer with `out`:
empty-after-trim input short-circuits to `clear()` (82-85, no fetch);
otherwise loading and error are set, the request is dispatched, and the
settle actions follow. -/
def searchTrace (o : Options) (input : String) (out : FetchOutcome AutoRespBody) :
    List SearchAction :=
  if jsBlank input then clearActions
  else startActions ++ [.actNet (autocompleteRequest o input)] ++ settleActions out

/-- Helper extractAddressComponent (index.ts 28-34): the long text of the first
component whose category-tag list contains the tag, if any. -/
def extractAddressComponent (components : List AddressComponent) (tag : String) :
    Option String :=
  (components.find? (fun comp => comp.types.contains tag)).map (·.longText)

/-- The `PlaceDetails` record assembled on the ok path of `getPlaceDetails`
(index.ts 56-70): `addressComponents` defaults to `[]` when absent. -/
def buildPlaceDetails (placeId : String) (b : DetailsRespBody) : PlaceDetails :=
  let addressComponents := b.addressComponents.getD []
  { placeId := placeId
    formattedAddress := b.formattedAddress
    addressComponents := addressComponents
    location := b.location
    streetNumber := extractAddressComponent addressComponents "street_number"
    streetName := extractAddressComponent addressComponents "route"
    city := extractAddressComponent addressComponents "locality"
    stateRegion := extractAddressComponent addressComponents "administrative_area_level_1"
    country := extractAddressComponent addressComponents "country"
    postalCode := extractAddressComponent addressComponents "postal_code" }

/-- Operation getPlaceDetails (index.ts 36-78) against a transport answering `out`.
The body performs no validation of `placeId`; the fetch is its first
statement.  A transport rejection is rethrown unchanged (the thrown value
is an `Error`, so the instanceof-guard at 72-74 keeps it); a non-ok status
throws the normalized message (52-53); on ok the details record is built. -/
def getPlaceDetails (_o : Options) (placeId : String) (out : FetchOutcome DetailsRespBody) :
    Except String PlaceDetails :=
  match out with
  | .reject m => .error m
  | .resolve ok status body =>
    if ok then .ok (buildPlaceDetails placeId body)
    else .error (httpErrorMessage body.errMsg status)

/-- The transport invocations a `getPlaceDetails(placeId)` run performs,
regardless of outcome: the fetch at index.ts line 39 is the first statement
of the function body and is not guarded by any test, so exactly one
request is always dispatched. -/
def detailsNetCalls (o : Options) (placeId : String)
    (_out : FetchOutcome DetailsRespBody) : List DetailsRequest :=
  [detailsRequest o placeId]

/-! ## Debounce coordinator (index.ts 145-159)

Event-loop timing model: a pending timer is the pair of its fire time and
the captured input; between two scheduling calls, a timer whose fire time
has been reached runs its callback before the later call executes. -/

/-- State of the debounce coordinator: the single pending-timer handle
(index.ts 21) and the inputs whose delayed `search` callback has fired,
in firing order. -/
structure DebState where
  pending : Option (Nat × String)
  fired : List String
deriving DecidableEq

/-- Initial coordinator state: no timer pending, nothing fired. -/
def initDeb : DebState := { pending := none, fired := [] }

/-- Advance the event loop to time `t`: a pending timer due at or before
`t` fires its callback (recording the captured input) and is consumed. -/
def fireDue (t : Nat) (s : DebState) : DebState :=
  match s.pending with
  | some (ft, q) =>
    if ft ≤ t then { pending := none, fired := s.fired ++ [q] } else s
  | none => s

/-- One `debouncedSearch(q)` call at time `t` (index.ts 146-156): any
callback already due has run; `clearTimeout` discards the still-pending
timer, and `setTimeout` arms a fresh one for `t + D` with the new input. -/
def scheduleCall (D : Nat) (s : DebState) (t : Nat) (q : String) : DebState :=
  let s := fireDue t s
  { s with pending := some (t + D, q) }

/-- Run a sequence of timed `debouncedSearch` calls. -/
def runSchedules (D : Nat) (s : DebState) (calls : List (Nat × String)) : DebState :=
  calls.foldl (fun s c => scheduleCall D s c.1 c.2) s

/-- Let the remaining time pass: the pending timer, if any, fires. -/
def flushDeb (s : DebState) : DebState :=
  match s.pending with
  | some (_, q) => { pending := none, fired := s.fired ++ [q] }
  | none => s

/-- The network requests produced by the fired callbacks: each fired input
runs `search` (index.ts 153), which dispatches at most one request. -/
def firedNetCalls (o : Options) (outFor : String → FetchOutcome AutoRespBody)
    (fired : List String) : List AutoRequest :=
  (fired.map (fun q => netCalls (searchTrace o q (outFor q)))).flatten

/-! ## Hook lifecycle system (index.ts 80-167 plus React semantics)

React discards state updates addressed to an unmounted component, so every
cell write is guarded by the mounted flag.  The `useEffect` cleanup
(index.ts 161-167) only clears the pending timer; it cannot abort a
dispatched network call, whose settle actions are late-discarded by the
same guard. -/

/-- Whole-system state: mount flag, pending debounce timer, inputs of
dispatched-but-unsettled network calls (oldest first), inputs dispatched so
far, and the three state cells. -/
structure SysState where
  mounted : Bool
  pending : Option (Nat × String)
  inFlight : List String
  dispatched : List String
  cell : HookState
deriving DecidableEq

/-- Initial system state: mounted, no timer, nothing in flight. -/
def initSys : SysState :=
  { mounted := true, pending := none, inFlight := [], dispatched := [], cell := initState }

/-- A guarded cell update: React applies it only while mounted. -/
def setCell (s : SysState) (f : HookState → HookState) : SysState :=
  if s.mounted then { s with cell := f s.cell } else s

/-- System events: a `debouncedSearch` call at a time, the event loop
reaching a time (firing a due timer, which runs `search` up to its fetch),
the settling of the oldest in-flight call, and unmount (the effect
cleanup). -/
inductive Ev where
  | sch (t : Nat) (q : String)
  | fire (t : Nat)
  | resp (out : FetchOutcome AutoRespBody)
  | unmount
deriving DecidableEq

/-- Whether an event is a `debouncedSearch` call. -/
def Ev.isSch : Ev → Bool
  | .sch _ _ => true
  | _ => false

/-- Whether an event is an event-loop tick. -/
def Ev.isFire : Ev → Bool
  | .fire _ => true
  | _ => false

/-- The synchronous prefix of `search(q)` run by the fired timer callback
(index.ts 82-125): a blank input applies `clear()` and dispatches nothing;
otherwise the start actions are applied and the request is dispatched. -/
def searchStart (s : SysState) (q : String) : SysState :=
  if jsBlank q then setCell s (fun c => runActions c clearActions)
  else
    let s := setCell s (fun c => runActions c startActions)
    { s with inFlight := s.inFlight ++ [q], dispatched := s.dispatched ++ [q] }

/-- One system step. `sch` runs the `debouncedSearch` body (clearTimeout
then setTimeout — the source does not consult the mount flag); `fire` runs
a due timer callback; `resp` settles the oldest in-flight call with the
catch/finally actions; `unmount` runs the cleanup (index.ts 162-166:
clearTimeout only — it is total, so disposal cannot throw) and drops the
mount flag. -/
def sysStep (D : Nat) (s : SysState) : Ev → SysState
  | .sch t q => { s with pending := some (t + D, q) }
  | .fire t =>
    match s.pending with
    | some (ft, q) =>
      if ft ≤ t then searchStart { s with pending := none } q else s
    | none => s
  | .resp out =>
    match s.inFlight with
    | [] => s
    | _ :: rest => setCell { s with inFlight := rest } (fun c => runActions c (settleActions out))
  | .unmount => { s with mounted := false, pending := none }

/-- Run a list of system events. -/
def runSys (D : Nat) (s : SysState) (evs : List Ev) : SysState :=
  evs.foldl (sysStep D) s

/-! ## Derived suggestion status (spec model)

Modelled from the spec: the status tag of the visible search state (the
variants declared by types.ts: LOADING, ERROR, OK, ZERO_RESULTS — called
the loading, error, ok-with-results and empty variants by the spec).  The
hook in index.ts exposes no status field, so the tag is derived from the
three cells. -/
inductive SuggStatus where
  | loadingTag
  | errorTag
  | okTag
  | zeroResultsTag
deriving DecidableEq

/-- Modelled from the spec: derive the status tag from the hook state. -/
def statusOf (s : HookState) : SuggStatus :=
  if s.loading then .loadingTag
  else if s.error.isSome then .errorTag
  else if s.predictions = [] then .zeroResultsTag
  else .okTag

/-- The caller-visible view: the hook state cells together with the query
text, which the source hook does not own — it lives with the caller
(index.ts stores only predictions, loading and error; spec section 3 notes
the query is ephemeral and owned by the caller). -/
structure CallerView where
  value : String
  hook : HookState
deriving DecidableEq

/-- The caller-visible effect of `clear` (index.ts 23-26): the body writes
only the predictions and error cells and has no access to any query text,
so the caller-held value is unchanged. -/
def clearView (v : CallerView) : CallerView :=
  { v with hook := clear v.hook }

/-- First-match reading of the spec sentence on derived address fields: the
result is absent exactly when no component carries the tag, and a present
result is the long text of the first component carrying the tag. -/
def firstMatchSpec (res : Option String) (comps : List AddressComponent) (tag : String) :
    Prop :=
  (res = none ↔ ∀ c ∈ comps, c.types.contains tag = false) ∧
  (∀ v, res = some v → ∃ i, ∃ h : i < comps.length,
    (comps.get ⟨i, h⟩).types.contains tag = true ∧
    v = (comps.get ⟨i, h⟩).longText ∧
    ∀ j, ∀ hj : j < comps.length, j < i → (comps.get ⟨j, hj⟩).types.contains tag = false)

/-- Helper: replace the configured session token. -/
def withToken (o : Options) (t : Option String) : Options :=
  { o with sessionToken := t }

/-- Timing hypothesis of the debounce claim: successive calls are ordered
in time and each arrives strictly less than the debounce interval after
the previous one. -/
def denseCalls (D : Nat) (calls : List (Nat × String)) : Prop :=
  calls.Chain' (fun a b => a.1 < b.1 ∧ b.1 < a.1 + D)

/-- Sample configuration used by concrete witnesses and counterexamples. -/
def oS : Options := { apiKey := "key" }

/-- Sample prediction used by concrete witnesses. -/
def pS : PlacePrediction :=
  { place := "places/x"
    placeId := "x"
    text := { text := "X street", matchSpans := [{ endOffset := 1 }] }
    structuredFormat :=
      { mainText := { text := "X street", matchSpans := [{ endOffset := 1 }] }
        secondaryText := { text := "Xtown" } }
    types := ["geocode"] }

end PAH

namespace PAH

lemma netCalls_append (l₁ l₂ : List SearchAction) :
    netCalls (l₁ ++ l₂) = netCalls l₁ ++ netCalls l₂ :=
  List.filterMap_append ..

lemma runActions_append (s : HookState) (l₁ l₂ : List SearchAction) :
    runActions s (l₁ ++ l₂) = runActions (runActions s l₁) l₂ :=
  List.foldl_append ..

lemma netCalls_settleActions (out : FetchOutcome AutoRespBody) :
    netCalls (settleActions out) = [] := by
  cases h : searchAttempt out <;> simp [settleActions, netCalls, h]

/-- The committed hook state of one `search` run on a non-blank input:
every failure parks the error and clears predictions, success commits the
mapped suggestions, and both paths end with loading cleared. -/
lemma search_final (o : Options) (s : HookState) (input : String)
    (out : FetchOutcome AutoRespBody) (h : jsBlank input = false) :
    runActions s (searchTrace o input out) =
      match searchAttempt out with
      | .ok preds => { s with predictions := preds, loading := false, error := none }
      | .error e => { s with predictions := [], loading := false, error := some e } := by
  cases hA : searchAttempt out <;>
    simp [searchTrace, h, startActions, settleActions, hA, runActions, applyAction]

lemma netCalls_searchTrace (o : Options) (input : String)
    (out : FetchOutcome AutoRespBody) (h : jsBlank input = false) :
    netCalls (searchTrace o input out) = [autocompleteRequest o input] := by
  have h1 : netCalls startActions = [] := rfl
  have h2 : ∀ l, netCalls (SearchAction.actNet (autocompleteRequest o input) :: l)
      = autocompleteRequest o input :: netCalls l := by
    intro l
    simp [netCalls]
  simp [searchTrace, h, netCalls_append, h1, h2, netCalls_settleActions]

/-- C7: a blank query (empty after trimming) dispatches no network request
and immediately commits the cleared state: predictions empty, error none
(index.ts 82-85). -/
theorem c7_blank_query_short_circuits (o : Options) (s : HookState) (input : String)
    (out : FetchOutcome AutoRespBody) (h : jsBlank input = true) :
    netCalls (searchTrace o input out) = [] ∧
    runActions s (searchTrace o input out) = { s with predictions := [], error := none } := by
  constructor
  · simp [searchTrace, h, clearActions, netCalls]
  · simp [searchTrace, h, clearActions, runActions, applyAction]

/-- C7 witness: a whitespace-only query on a concrete dirty state. -/
theorem c7_witness :
    jsBlank "   " = true ∧
    netCalls (searchTrace oS "   " (.reject "never")) = [] ∧
    runActions { predictions := [pS], loading := false, error := some "old" }
        (searchTrace oS "   " (.reject "never"))
      = { predictions := [], loading := false, error := none } := by
  have h := c7_blank_query_short_circuits oS
    { predictions := [pS], loading := false, error := some "old" } "   "
    (.reject "never") (by decide)
  exact ⟨by decide, h.1, h.2⟩

/-- C8: on every non-blank query, `search` dispatches exactly one request;
the state at the dispatch point has loading set to true (only cell writes
precede the dispatch), and once the run settles — success or any failure —
loading reads false (index.ts 87-140). -/
theorem c8_loading_lifecycle (o : Options) (s : HookState) (input : String)
    (out : FetchOutcome AutoRespBody) (h : jsBlank input = false) :
    netCalls (searchTrace o input out) = [autocompleteRequest o input] ∧
    (∃ pre post, searchTrace o input out
        = pre ++ SearchAction.actNet (autocompleteRequest o input) :: post ∧
      netCalls pre = [] ∧ (runActions s pre).loading = true) ∧
    (runActions s (searchTrace o input out)).loading = false := by
  refine ⟨netCalls_searchTrace o input out h, ?_, ?_⟩
  · refine ⟨startActions, settleActions out, ?_, ?_, ?_⟩
    · simp [searchTrace, h]
    · simp [startActions, netCalls]
    · simp [startActions, runActions, applyAction]
  · rw [search_final o s input out h]
    cases searchAttempt out <;> simp

/-- C8 witness: a concrete non-blank query, exercised on a transport
failure outcome. -/
theorem c8_witness :
    jsBlank "test" = false ∧
    netCalls (searchTrace oS "test" (.reject "down")) = [autocompleteRequest oS "test"] ∧
    (runActions initState (searchTrace oS "test" (.reject "down"))).loading = false := by
  have h := c8_loading_lifecycle oS initState "test" (.reject "down") (by decide)
  exact ⟨by decide, h.1, h.2.2⟩

/-- C4: every failing outcome of a non-blank search is converted into local
state — error set, predictions cleared — and never escapes as an
exception (the embedding of `search` is a total function on outcomes):
a transport rejection surfaces its own message verbatim (index.ts 135-137);
a non-ok status surfaces the error-body message when a truthy one is
present, else the message synthesized from the status code (128-129);
an ok response missing the suggestions field raises a `TypeError` that the
same catch converts (134-137). -/
theorem c4_failures_become_state (o : Options) (s : HookState) (input : String)
    (h : jsBlank input = false) :
    (∀ m, (runActions s (searchTrace o input (.reject m))).error = some m ∧
      (runActions s (searchTrace o input (.reject m))).predictions = []) ∧
    (∀ st b msg, b.errMsg = some msg → msg ≠ "" →
      (runActions s (searchTrace o input (.resolve false st b))).error = some msg ∧
      (runActions s (searchTrace o input (.resolve false st b))).predictions = []) ∧
    (∀ st b, b.errMsg = none →
      (runActions s (searchTrace o input (.resolve false st b))).error
        = some ("HTTP error! status: " ++ toString st) ∧
      (runActions s (searchTrace o input (.resolve false st b))).predictions = []) ∧
    (∀ st b, b.suggestions = none →
      ((runActions s (searchTrace o input (.resolve true st b))).error).isSome = true ∧
      (runActions s (searchTrace o input (.resolve true st b))).predictions = []) := by
  refine ⟨?_, ?_, ?_, ?_⟩
  · intro m
    rw [search_final o s input (.reject m) h]
    simp [searchAttempt]
  · intro st b msg hm hne
    rw [search_final o s input (.resolve false st b) h]
    simp [searchAttempt, httpErrorMessage, hm, hne]
  · intro st b hm
    rw [search_final o s input (.resolve false st b) h]
    simp [searchAttempt, httpErrorMessage, hm]
  · intro st b hs
    rw [search_final o s input (.resolve true st b) h]
    simp [searchAttempt, hs]

/-- C4 witness: concrete runs of all four failing shapes on the query
"berlin". -/
theorem c4_witness :
    (runActions initState (searchTrace oS "berlin" (.reject "netdown"))).error
        = some "netdown" ∧
    (runActions initState (searchTrace oS "berlin"
        (.resolve false 403 { errMsg := some "denied", suggestions := none }))).error
      = some "denied" ∧
    (runActions initState (searchTrace oS "berlin"
        (.resolve false 500 { errMsg := none, suggestions := none }))).error
      = some "HTTP error! status: 500" ∧
    ((runActions initState (searchTrace oS "berlin"
        (.resolve true 200 { errMsg := none, suggestions := none }))).error).isSome = true ∧
    (runActions initState (searchTrace oS "berlin"
        (.resolve true 200 { errMsg := none, suggestions := none }))).predictions = [] := by
  have h := c4_failures_become_state oS initState "berlin" (by decide)
  refine ⟨(h.1 "netdown").1, ?_, ?_, ?_, ?_⟩
  · exact (h.2.1 403 { errMsg := some "denied", suggestions := none } "denied" rfl
      (by decide)).1
  · exact (h.2.2.1 500 { errMsg := none, suggestions := none } rfl).1
  · exact (h.2.2.2 200 { errMsg := none, suggestions := none } rfl).1
  · exact (h.2.2.2 200 { errMsg := none, suggestions := none } rfl).2

/-- C6: a successful response commits exactly the suggestions, each mapped
to its placePrediction, preserving server order, and leaves error none; an
empty suggestion list commits the empty sequence (index.ts 132-134). -/
theorem c6_success_commits_mapped_suggestions (o : Options) (s : HookState)
    (input : String) (st : Nat) (b : AutoRespBody) (sugs : List Suggestion)
    (h : jsBlank input = false) (hs : b.suggestions = some sugs) :
    (runActions s (searchTrace o input (.resolve true st b))).predictions
        = sugs.map (·.placePrediction) ∧
    (runActions s (searchTrace o input (.resolve true st b))).error = none ∧
    (runActions s (searchTrace o input (.resolve true st b))).predictions.length
        = sugs.length ∧
    (∀ i : Nat, (runActions s (searchTrace o input (.resolve true st b))).predictions[i]?
        = Option.map (fun sg : Suggestion => sg.placePrediction) sugs[i]?) ∧
    (sugs = [] → (runActions s (searchTrace o input (.resolve true st b))).predictions = []) := by
  rw [search_final o s input (.resolve true st b) h]
  simp only [searchAttempt, hs]
  refine ⟨rfl, rfl, by simp, ?_, ?_⟩
  · intro i
    simp
  · intro he
    simp [he]

/-- C6 witness: a concrete two-suggestion response and a concrete empty
response. -/
theorem c6_witness :
    (runActions initState (searchTrace oS "x street"
        (.resolve true 200 { errMsg := none, suggestions := some [{ placePrediction := pS }] }))).predictions
      = [pS] ∧
    (runActions initState (searchTrace oS "x street"
        (.resolve true 200 { errMsg := none, suggestions := some [{ placePrediction := pS }] }))).error
      = none ∧
    (runActions initState (searchTrace oS "x street"
        (.resolve true 200 { errMsg := none, suggestions := some [] }))).predictions = [] := by
  have h₁ := c6_success_commits_mapped_suggestions oS initState "x street" 200
    { errMsg := none, suggestions := some [{ placePrediction := pS }] }
    [{ placePrediction := pS }] (by decide) rfl
  have h₂ := c6_success_commits_mapped_suggestions oS initState "x street" 200
    { errMsg := none, suggestions := some [] } [] (by decide) rfl
  exact ⟨h₁.1, h₁.2.1, h₂.2.2.2.2 rfl⟩

/-- C5 counterexample: the claim says `clear` resets the query text to the
empty string, but the hook owns no query-text cell (index.ts 18-20 declare
only predictions, loading and error) and the body of `clear` (23-26)
writes only predictions and error, so a caller-held query text survives a
`clear` unchanged: with the caller holding "Berlin", it still reads
"Berlin" — not "" — after `clear`. -/
theorem c5_counterexample :
    (clearView { value := "Berlin"
                 hook := { predictions := [pS], loading := false, error := some "boom" } }).value
      = "Berlin" ∧ ("Berlin" : String) ≠ "" := by
  exact ⟨rfl, by decide⟩

/-- C5 amended: `clear` resets the prediction sequence to empty and the
error to none; it does not modify any query text (the hook holds none —
the caller-held value is untouched) and does not touch loading, so the
derived status of the cleared state is the empty variant whenever the hook
is not loading. -/
theorem c5_clear_resets_results (s : HookState) (v : CallerView) :
    clear s = { predictions := [], loading := s.loading, error := none } ∧
    (clearView v).hook.predictions = [] ∧
    (clearView v).hook.error = none ∧
    (clearView v).value = v.value ∧
    (s.loading = false → statusOf (clear s) = SuggStatus.zeroResultsTag) := by
  refine ⟨rfl, rfl, rfl, rfl, ?_⟩
  intro h
  simp [clear, statusOf, h]

/-- C5 witness: `clear` on a concrete dirty state, with a concrete
caller-held value. -/
theorem c5_witness :
    clear { predictions := [pS], loading := false, error := some "old" }
      = { predictions := [], loading := false, error := none } ∧
    (clearView { value := "10 Main", hook := initState }).value = "10 Main" ∧
    statusOf (clear { predictions := [pS], loading := false, error := some "old" })
      = SuggStatus.zeroResultsTag := by
  have h := c5_clear_resets_results
    { predictions := [pS], loading := false, error := some "old" }
    { value := "10 Main", hook := initState }
  exact ⟨h.1, h.2.2.2.1, h.2.2.2.2 rfl⟩

lemma extract_firstMatchSpec (comps : List AddressComponent) (tag : String) :
    firstMatchSpec (extractAddressComponent comps tag) comps tag := by
  induction comps with
  | nil =>
    refine ⟨by simp [extractAddressComponent], ?_⟩
    intro v hv
    simp [extractAddressComponent] at hv
  | cons c cs ih =>
    by_cases hc : c.types.contains tag = true
    · have hfind : extractAddressComponent (c :: cs) tag = some c.longText := by
        have hc' : decide (tag ∈ c.types) = true := by simpa using hc
        simp [extractAddressComponent, List.find?_cons, hc']
      refine ⟨?_, ?_⟩
      · rw [hfind]
        constructor
        · intro hcontra
          exact Option.noConfusion hcontra
        · intro hall
          have hfalse := hall c (List.mem_cons_self c cs)
          rw [hc] at hfalse
          exact Bool.noConfusion hfalse
      · intro v hv
        rw [hfind] at hv
        refine ⟨0, Nat.succ_pos cs.length, hc, (Option.some.inj hv).symm, ?_⟩
        intro j hj hj0
        exact absurd hj0 (Nat.not_lt_zero j)
    · have hcf : c.types.contains tag = false := by
        simpa using hc
      have hfind : extractAddressComponent (c :: cs) tag = extractAddressComponent cs tag := by
        have hcf' : decide (tag ∈ c.types) = false := by simpa using hcf
        simp [extractAddressComponent, List.find?_cons, hcf']
      rw [hfind]
      obtain ⟨ihnone, ihsome⟩ := ih
      refine ⟨?_, ?_⟩
      · rw [ihnone]
        constructor
        · intro hall c' hc'
          rcases List.mem_cons.mp hc' with h0 | h0
          · rw [h0]
            exact hcf
          · exact hall c' h0
        · intro hall c' hc'
          exact hall c' (List.mem_cons_of_mem _ hc')
      · intro v hv
        obtain ⟨i, hi, htag, hlong, hmin⟩ := ihsome v hv
        refine ⟨i + 1, Nat.succ_lt_succ hi, htag, hlong, ?_⟩
        intro j hj hji
        cases j with
        | zero => exact hcf
        | succ k =>
          exact hmin k (Nat.lt_of_succ_lt_succ hj) (Nat.lt_of_succ_lt_succ hji)

/-- C9: on a successful details response, every derived optional field is
the long text of the first address component whose category-tag list
contains the corresponding tag (street_number, route, locality,
administrative_area_level_1, country, postal_code), and is absent when no
component matches; an absent addressComponents field defaults to the empty
sequence (index.ts 28-34, 56-70). -/
theorem c9_details_field_derivation (o : Options) (pid : String) (st : Nat)
    (b : DetailsRespBody) (d : PlaceDetails)
    (h : getPlaceDetails o pid (.resolve true st b) = .ok d) :
    d.addressComponents = b.addressComponents.getD [] ∧
    (b.addressComponents = none → d.addressComponents = []) ∧
    firstMatchSpec d.streetNumber d.addressComponents "street_number" ∧
    firstMatchSpec d.streetName d.addressComponents "route" ∧
    firstMatchSpec d.city d.addressComponents "locality" ∧
    firstMatchSpec d.stateRegion d.addressComponents "administrative_area_level_1" ∧
    firstMatchSpec d.country d.addressComponents "country" ∧
    firstMatchSpec d.postalCode d.addressComponents "postal_code" := by
  have hd : d = buildPlaceDetails pid b := by
    have := h
    simp [getPlaceDetails] at this
    exact this.symm
  subst hd
  refine ⟨rfl, ?_, ?_, ?_, ?_, ?_, ?_, ?_⟩
  · intro hnone
    simp [buildPlaceDetails, hnone]
  all_goals
    exact extract_firstMatchSpec ..

/-- C9 witness: a component list carrying a postal code and a street
number but no locality yields exactly those derived fields. -/
theorem c9_witness :
    firstMatchSpec
      (buildPlaceDetails "p1"
        { errMsg := none
          formattedAddress := "94105 somewhere"
          addressComponents := some
            [{ longText := "94105", shortText := "94105", types := ["postal_code"] }]
          location := { latitude := 1, longitude := 2 } }).postalCode
      (buildPlaceDetails "p1"
        { errMsg := none
          formattedAddress := "94105 somewhere"
          addressComponents := some
            [{ longText := "94105", shortText := "94105", types := ["postal_code"] }]
          location := { latitude := 1, longitude := 2 } }).addressComponents
      "postal_code" ∧
    (buildPlaceDetails "p1"
        { errMsg := none
          formattedAddress := "94105 somewhere"
          addressComponents := some
            [{ longText := "94105", shortText := "94105", types := ["postal_code"] }]
          location := { latitude := 1, longitude := 2 } }).postalCode = some "94105" ∧
    (buildPlaceDetails "p1"
        { errMsg := none
          formattedAddress := "94105 somewhere"
          addressComponents := some
            [{ longText := "94105", shortText := "94105", types := ["postal_code"] }]
          location := { latitude := 1, longitude := 2 } }).city = none := by
  have h := c9_details_field_derivation oS "p1" 200
    { errMsg := none
      formattedAddress := "94105 somewhere"
      addressComponents := some
        [{ longText := "94105", shortText := "94105", types := ["postal_code"] }]
      location := { latitude := 1, longitude := 2 } }
    (buildPlaceDetails "p1"
      { errMsg := none
        formattedAddress := "94105 somewhere"
        addressComponents := some
          [{ longText := "94105", shortText := "94105", types := ["postal_code"] }]
        location := { latitude := 1, longitude := 2 } })
    rfl
  exact ⟨h.2.2.2.2.2.2.2, by decide, by decide⟩

/-- C10: the configured session token value is never placed in a request.
For both the autocomplete and the details request, any two truthy token
values produce identical requests (the request cannot depend on the token
value), and a truthy token changes the no-token request only by appending
the X-Goog-Api-Key header whose value is the API key, not the token
(index.ts 46, 121).  A falsy (empty) token yields exactly the no-token
request. -/
theorem c10_session_token_value_never_sent (o : Options) (input pid t t₁ t₂ : String)
    (h : t ≠ "") (h₁ : t₁ ≠ "") (h₂ : t₂ ≠ "") :
    autocompleteRequest (withToken o (some t₁)) input
        = autocompleteRequest (withToken o (some t₂)) input ∧
    detailsRequest (withToken o (some t₁)) pid
        = detailsRequest (withToken o (some t₂)) pid ∧
    autocompleteRequest (withToken o (some t)) input
      = { autocompleteRequest (withToken o none) input with
            headers := (autocompleteRequest (withToken o none) input).headers
              ++ [("X-Goog-Api-Key", o.apiKey)] } ∧
    detailsRequest (withToken o (some t)) pid
      = { detailsRequest (withToken o none) pid with
            headers := (detailsRequest (withToken o none) pid).headers
              ++ [("X-Goog-Api-Key", o.apiKey)] } ∧
    autocompleteRequest (withToken o (some "")) input
        = autocompleteRequest (withToken o none) input ∧
    detailsRequest (withToken o (some "")) pid = detailsRequest (withToken o none) pid := by
  refine ⟨?_, ?_, ?_, ?_, ?_, ?_⟩ <;>
    simp [autocompleteRequest, detailsRequest, withToken, sessionHeaders, tokenTruthy,
      h, h₁, h₂]

/-- C10 witness: two concrete truthy tokens and the empty token on a
concrete configuration. -/
theorem c10_witness :
    autocompleteRequest (withToken oS (some "tokA")) "berlin"
        = autocompleteRequest (withToken oS (some "tokB")) "berlin" ∧
    (autocompleteRequest (withToken oS (some "tokA")) "berlin").headers
        = (autocompleteRequest (withToken oS none) "berlin").headers
          ++ [("X-Goog-Api-Key", "key")] ∧
    detailsRequest (withToken oS (some "")) "p1" = detailsRequest (withToken oS none) "p1" := by
  have h := c10_session_token_value_never_sent oS "berlin" "p1" "tokA" "tokA" "tokB"
    (by decide) (by decide) (by decide)
  refine ⟨h.1, ?_, h.2.2.2.2.2⟩
  rw [h.2.2.1]
  rfl

/-- C1 counterexample: with the empty place identifier, `getPlaceDetails`
still invokes the transport — the fetch at index.ts line 39 is the first
statement of the body and no validation precedes it — with the URL
.../v1/places/?key=... , and with a successful response it returns a
details record instead of failing with an invalid-argument condition. -/
theorem c1_counterexample :
    detailsNetCalls oS ""
        (.resolve true 200
          { errMsg := none
            formattedAddress := "10 Main St"
            addressComponents := none
            location := { latitude := 1, longitude := 2 } })
      = [detailsRequest oS ""] ∧
    (detailsRequest oS "").url
      = "https://places.googleapis.com/v1/places/?key=key&languageCode=en" ∧
    (getPlaceDetails oS ""
        (.resolve true 200
          { errMsg := none
            formattedAddress := "10 Main St"
            addressComponents := none
            location := { latitude := 1, longitude := 2 } })).toOption.isSome = true := by
  exact ⟨rfl, by decide, rfl⟩

/-- C1 amended: `getPlaceDetails` performs no validation of the place
identifier: for every identifier — the empty one included — the transport
is invoked exactly once, with the identifier spliced into the URL, and an
empty identifier with a successful response produces an ok result rather
than an invalid-argument failure. -/
theorem c1_no_empty_id_validation (o : Options) (pid : String)
    (out : FetchOutcome DetailsRespBody) (b : DetailsRespBody) :
    detailsNetCalls o pid out = [detailsRequest o pid] ∧
    (detailsRequest o pid).url
      = "https://places.googleapis.com/v1/places/" ++ pid ++ "?key=" ++ o.apiKey
        ++ "&languageCode=" ++ o.language ∧
    (getPlaceDetails o "" (.resolve true 200 b)).toOption.isSome = true := by
  exact ⟨rfl, rfl, rfl⟩

/-- Under dense calls, no timer fires during the call sequence: each call
arrives before the previous fire time, cancels the pending timer and arms
its own, so afterwards the fired list is untouched and exactly the last
timer is pending. -/
lemma runSchedules_dense (D : Nat) :
    ∀ (calls : List (Nat × String)) (s : DebState),
    denseCalls D calls →
    (∀ ft q, s.pending = some (ft, q) → ∀ c ∈ calls.head?, c.1 < ft) →
    ∀ tl ql, calls.getLast? = some (tl, ql) →
    runSchedules D s calls = { pending := some (tl + D, ql), fired := s.fired } := by
  intro calls
  induction calls with
  | nil =>
    intro s _ _ tl ql hlast
    exact absurd hlast (by simp)
  | cons hd rest ih =>
    intro s hchain hpend tl ql hlast
    have hstep : scheduleCall D s hd.1 hd.2
        = { pending := some (hd.1 + D, hd.2), fired := s.fired } := by
      unfold scheduleCall fireDue
      match hs : s.pending with
      | none => simp
      | some (ft, q) =>
        have hlt : hd.1 < ft := hpend ft q hs hd (by simp)
        simp [Nat.not_le.mpr hlt]
    have hrun : runSchedules D s (hd :: rest)
        = runSchedules D (scheduleCall D s hd.1 hd.2) rest := rfl
    rw [hrun, hstep]
    match rest, hchain, hlast with
    | [], _, hlast =>
      have : hd = (tl, ql) := by simpa using hlast
      rw [this]
      rfl
    | nxt :: rest', hchain, hlast =>
      have hcc := List.chain'_cons.mp hchain
      have hlast' : (nxt :: rest').getLast? = some (tl, ql) := by
        rwa [List.getLast?_cons_cons] at hlast
      exact ih { pending := some (hd.1 + D, hd.2), fired := s.fired }
        hcc.2
        (by
          intro ft q hft c hcin
          simp at hcin hft
          rw [← hcin, ← hft.1]
          exact hcc.1.2)
        tl ql hlast'

/-- C3 counterexample: the claim promises exactly one network call for
every dense call sequence, carrying the last query text, but a sequence
whose last query is whitespace-only produces zero network calls: the
single fired callback runs `search(" ")`, which short-circuits at
index.ts 82-85 without dispatching. -/
theorem c3_counterexample :
    (flushDeb (runSchedules 300 initDeb [(0, " ")])).fired = [" "] ∧
    firedNetCalls oS (fun _ => .resolve true 200 { errMsg := none, suggestions := some [] })
        (flushDeb (runSchedules 300 initDeb [(0, " ")])).fired = [] ∧
    ([] : List AutoRequest).length ≠ 1 := by
  exact ⟨by decide, by decide, by decide⟩

/-- C3 amended: for every dense sequence of `debouncedSearch` calls (each
arriving less than the debounce interval after the previous one), all
earlier scheduled invocations are cancelled before firing and exactly one
invocation of `search` fires once the interval elapses after the last
call, carrying the last supplied query text; it dispatches exactly one
network call with that text when the text is non-blank, and none when the
text is whitespace-only. -/
theorem c3_debounce_coalesces_to_last (D : Nat) (o : Options)
    (outFor : String → FetchOutcome AutoRespBody)
    (calls : List (Nat × String)) (tl : Nat) (ql : String)
    (hchain : denseCalls D calls) (hlast : calls.getLast? = some (tl, ql)) :
    (runSchedules D initDeb calls).fired = [] ∧
    (runSchedules D initDeb calls).pending = some (tl + D, ql) ∧
    (flushDeb (runSchedules D initDeb calls)).fired = [ql] ∧
    firedNetCalls o outFor (flushDeb (runSchedules D initDeb calls)).fired
      = (if jsBlank ql then [] else [autocompleteRequest o ql]) := by
  have hrun := runSchedules_dense D calls initDeb hchain
    (by intro ft q hft; exact absurd hft (by simp [initDeb])) tl ql hlast
  rw [hrun]
  refine ⟨rfl, rfl, rfl, ?_⟩
  show firedNetCalls o outFor [ql] = _
  unfold firedNetCalls
  by_cases hb : jsBlank ql = true
  · have := (c7_blank_query_short_circuits o initState ql (outFor ql) hb).1
    simp [hb, this]
  · have hb' : jsBlank ql = false := by simpa using hb
    have := netCalls_searchTrace o ql (outFor ql) hb'
    simp [hb', this]

/-- C3 witness: three concrete calls 100 and 150 ms apart under a 300 ms
interval coalesce into one network call carrying "test". -/
theorem c3_witness :
    denseCalls 300 [(0, "te"), (100, "tes"), (250, "test")] ∧
    (flushDeb (runSchedules 300 initDeb [(0, "te"), (100, "tes"), (250, "test")])).fired
      = ["test"] ∧
    firedNetCalls oS (fun _ => .resolve true 200 { errMsg := none, suggestions := some [] })
        (flushDeb (runSchedules 300 initDeb [(0, "te"), (100, "tes"), (250, "test")])).fired
      = [autocompleteRequest oS "test"] := by
  have hchain : denseCalls 300 [(0, "te"), (100, "tes"), (250, "test")] := by
    unfold denseCalls
    simp [List.chain'_cons]
  have h := c3_debounce_coalesces_to_last 300 oS
    (fun _ => .resolve true 200 { errMsg := none, suggestions := some [] })
    [(0, "te"), (100, "tes"), (250, "test")] 250 "test" hchain (by simp)
  refine ⟨hchain, h.2.2.1, ?_⟩
  have hb : jsBlank "test" = false := by decide
  rw [h.2.2.2, hb]
  simp

/-- After the cleanup has run, the system is inert: with the mount flag
down and no pending timer, any continuation free of further
`debouncedSearch` calls leaves the state cells, the dispatch log and the
(absent) timer untouched — late timer ticks are no-ops and late responses
are discarded by the unmount guard. -/
lemma runSys_unmounted (D : Nat) :
    ∀ (evs : List Ev) (s : SysState),
    s.mounted = false → s.pending = none → (∀ e ∈ evs, e.isSch = false) →
    (runSys D s evs).cell = s.cell ∧ (runSys D s evs).pending = none ∧
    (runSys D s evs).dispatched = s.dispatched ∧ (runSys D s evs).mounted = false := by
  intro evs
  induction evs with
  | nil =>
    intro s hm hp _
    exact ⟨rfl, hp, rfl, hm⟩
  | cons e rest ih =>
    intro s hm hp hsch
    have hstep : (sysStep D s e).cell = s.cell ∧ (sysStep D s e).pending = none ∧
        (sysStep D s e).dispatched = s.dispatched ∧ (sysStep D s e).mounted = false := by
      cases e with
      | sch t q =>
        have hbad := hsch (Ev.sch t q) (List.mem_cons_self _ _)
        exact absurd hbad (by simp [Ev.isSch])
      | fire t =>
        have hid : sysStep D s (Ev.fire t) = s := by
          simp [sysStep, hp]
        rw [hid]
        exact ⟨rfl, hp, rfl, hm⟩
      | resp out =>
        match hf : s.inFlight with
        | [] =>
          have hid : sysStep D s (Ev.resp out) = s := by
            simp [sysStep, hf]
          rw [hid]
          exact ⟨rfl, hp, rfl, hm⟩
        | x :: rest' =>
          have hid : sysStep D s (Ev.resp out) = { s with inFlight := rest' } := by
            simp [sysStep, hf, setCell, hm]
          rw [hid]
          exact ⟨rfl, hp, rfl, hm⟩
      | unmount =>
        exact ⟨rfl, rfl, rfl, rfl⟩
    have hres := ih (sysStep D s e) hstep.2.2.2 hstep.2.1
      (by intro e' he'; exact hsch e' (by simp [he']))
    refine ⟨?_, hres.2.1, ?_, hres.2.2.2⟩
    · rw [show runSys D s (e :: rest) = runSys D (sysStep D s e) rest from rfl,
        hres.1, hstep.1]
    · rw [show runSys D s (e :: rest) = runSys D (sysStep D s e) rest from rfl,
        hres.2.2.1, hstep.2.2.1]

/-- Before the first timer ever fires, loading is false and nothing is in
flight: scheduling, responses to an empty in-flight list, and unmounting
leave both facts intact. -/
lemma runSys_no_fire_loading (D : Nat) :
    ∀ (evs : List Ev) (s : SysState),
    (∀ e ∈ evs, e.isFire = false) → s.cell.loading = false → s.inFlight = [] →
    (runSys D s evs).cell.loading = false ∧ (runSys D s evs).inFlight = [] := by
  intro evs
  induction evs with
  | nil =>
    intro s _ hl hf
    exact ⟨hl, hf⟩
  | cons e rest ih =>
    intro s hfire hl hf
    have hstep : (sysStep D s e).cell.loading = false ∧ (sysStep D s e).inFlight = [] := by
      cases e with
      | sch t q => exact ⟨hl, hf⟩
      | fire t =>
        have hbad := hfire (Ev.fire t) (List.mem_cons_self _ _)
        exact absurd hbad (by simp [Ev.isFire])
      | resp out =>
        have hid : sysStep D s (Ev.resp out) = s := by
          simp [sysStep, hf]
        rw [hid]
        exact ⟨hl, hf⟩
      | unmount => exact ⟨hl, hf⟩
    exact ih (sysStep D s e) (by intro e' he'; exact hfire e' (by simp [he']))
      hstep.1 hstep.2

/-- C2 counterexample: the claim says loading reads false after disposal
completes, but when disposal happens while the network call is in flight
the loading cell was already true and no update may apply after teardown,
so it stays true: schedule "test" at 0, let the timer fire at 300 (loading
becomes true, the request is dispatched), unmount, then let the response
arrive — loading still reads true. -/
theorem c2_counterexample :
    ¬ ((runSys 300 initSys
        [Ev.sch 0 "test", Ev.fire 300, Ev.unmount,
         Ev.resp (.resolve true 200 { errMsg := none, suggestions := some [] })]).cell.loading
      = false) := by
  decide

/-- C2 amended: after disposal (which runs only `clearTimeout`, a total
operation, so it cannot throw), no pending debounce callback ever fires
and no state update is ever applied — the timer handle stays empty, the
dispatch log stays frozen (so a pending callback can no longer dispatch),
and the state cells keep the exact values they had when disposal
completed, late in-flight responses included; loading reads false after
disposal whenever disposal happened before any timer fired (dispose while
idle or while only the debounce timer was pending), while disposal during
an in-flight call leaves loading frozen at true. -/
theorem c2_disposal_freezes_state (D : Nat) (pre post : List Ev)
    (hpost : ∀ e ∈ post, e.isSch = false) :
    (runSys D initSys (pre ++ Ev.unmount :: post)).cell
        = (runSys D initSys (pre ++ [Ev.unmount])).cell ∧
    (runSys D initSys (pre ++ Ev.unmount :: post)).pending = none ∧
    (runSys D initSys (pre ++ Ev.unmount :: post)).dispatched
        = (runSys D initSys (pre ++ [Ev.unmount])).dispatched ∧
    ((∀ e ∈ pre, e.isFire = false) →
      (runSys D initSys (pre ++ Ev.unmount :: post)).cell.loading = false) := by
  have hsplit : pre ++ Ev.unmount :: post = (pre ++ [Ev.unmount]) ++ post := by
    simp
  have hu : runSys D initSys (pre ++ [Ev.unmount])
      = sysStep D (runSys D initSys pre) Ev.unmount := by
    unfold runSys
    rw [List.foldl_append]
    rfl
  have hmount : (runSys D initSys (pre ++ [Ev.unmount])).mounted = false := by
    rw [hu]
    rfl
  have hpend : (runSys D initSys (pre ++ [Ev.unmount])).pending = none := by
    rw [hu]
    rfl
  have happ : runSys D initSys ((pre ++ [Ev.unmount]) ++ post)
      = runSys D (runSys D initSys (pre ++ [Ev.unmount])) post := by
    unfold runSys
    rw [List.foldl_append]
  have hinert := runSys_unmounted D post (runSys D initSys (pre ++ [Ev.unmount]))
    hmount hpend hpost
  rw [hsplit, happ]
  refine ⟨hinert.1, hinert.2.1, hinert.2.2.1, ?_⟩
  intro hfire
  rw [hinert.1, hu]
  have hpre := runSys_no_fire_loading D pre initSys hfire rfl rfl
  exact hpre.1

/-- C2 witness: disposal while a concrete debounce timer is pending; the
late tick and a late transport response change nothing and loading reads
false. -/
theorem c2_witness :
    (runSys 300 initSys ([Ev.sch 0 "test"] ++ Ev.unmount :: [Ev.fire 300, Ev.resp (.reject "late")])).cell
        = (runSys 300 initSys ([Ev.sch 0 "test"] ++ [Ev.unmount])).cell ∧
    (runSys 300 initSys ([Ev.sch 0 "test"] ++ Ev.unmount :: [Ev.fire 300, Ev.resp (.reject "late")])).pending
        = none ∧
    (runSys 300 initSys ([Ev.sch 0 "test"] ++ Ev.unmount :: [Ev.fire 300, Ev.resp (.reject "late")])).dispatched
        = (runSys 300 initSys ([Ev.sch 0 "test"] ++ [Ev.unmount])).dispatched ∧
    (runSys 300 initSys ([Ev.sch 0 "test"] ++ Ev.unmount :: [Ev.fire 300, Ev.resp (.reject "late")])).cell.loading
        = false := by
  have h := c2_disposal_freezes_state 300 [Ev.sch 0 "test"]
    [Ev.fire 300, Ev.resp (.reject "late")] (by decide)
  exact ⟨h.1, h.2.1, h.2.2.1, h.2.2.2 (by decide)⟩

end PAH
